import Mathlib

/-!
Shallow embedding of the session/token authentication core of the
net-clip clipboard server (Rust sources under src/clipboard_server/src).

Modelling conventions:
- MySQL tables are Lean lists of rows; `sqlx fetch_one` on a SELECT is
  `List.find?` (the first matching row, RowNotFound becomes `none`).
- Timestamps (chrono DateTime, JWT usize seconds) are `Int` seconds.
- A JWT string is modelled by the inductive `Token`: the `jsonwebtoken`
  encoding of a claims struct under a secret is deterministic and
  injective, so a well-formed token string is identified with the pair
  (claims, signing secret); any other string is `Token.malformed`.
- `jsonwebtoken` decode with `Validation::default()` checks the HMAC
  signature and the `exp` claim with the crate default 60-second leeway:
  decoding succeeds iff the secret matches and `exp >= now - 60`.
- bcrypt is modelled as an ideal one-way hash: `bcryptHash` is injective
  on inputs and `bcryptVerify secret digest` holds iff the digest was
  produced from exactly that secret.
- Database failures (pool exhaustion, connectivity) are not modelled:
  every query executes.  tracing log output is ignored.
-/

namespace NetClip

/-- clipboard_server config.rs struct Config. -/
structure Config where
  database_url : String
  server_port : Nat
  jwt_secret : String
  jwt_expires_in : Int
  jwt_refresh_expires_in : Int
deriving DecidableEq, Repr

/-- Default values taken in config.rs when the environment leaves them unset
(DATABASE_URL has no default and is irrelevant to the auth core). -/
def defaultConfig : Config :=
  ⟨"mysql://localhost/clip", 3000, "default_secret_key", 3600, 2592000⟩

/-- models.rs struct TokenClaims: the signed JWT payload. -/
structure TokenClaims where
  sub : Int
  exp : Int
  iat : Int
deriving DecidableEq, Repr

/-- A JWT string.  `signed c s` stands for the unique string produced by
jsonwebtoken encode of claims `c` under HS256 with secret `s`;
`malformed r` stands for any string that is not such an encoding. -/
inductive Token where
  | signed (claims : TokenClaims) (secret : String)
  | malformed (raw : String)
deriving DecidableEq, Repr

/-- jsonwebtoken Validation default leeway in seconds (applied to exp). -/
def jwtLeeway : Int := 60

/-- jsonwebtoken decode with DecodingKey from `secret` and
Validation default: succeeds iff the signature was made with the same
secret and `exp >= now - leeway`. -/
def decodeToken (secret : String) (now : Int) : Token → Option TokenClaims
  | Token.signed c s => if s = secret ∧ now - jwtLeeway ≤ c.exp then some c else none
  | Token.malformed _ => none

/-- models.rs struct User (row of clip_users; `deleted_at` is the
soft-delete column referenced by the repository queries). -/
structure User where
  id : Int
  username : String
  email : String
  password_hash : String
  salt : String
  status : Int
  last_login_at : Option Int
  last_login_ip : Option String
  login_count : Int
  created_at : Int
  updated_at : Int
  deleted_at : Option Int
deriving DecidableEq, Repr

/-- models.rs struct UserSession (row of clip_user_sessions). -/
structure UserSession where
  id : Int
  user_id : Int
  token : Token
  refresh_token : Token
  expires_at : Int
  refresh_expires_at : Int
  device_info : Option String
  ip_address : Option String
  created_at : Int
deriving DecidableEq, Repr

/-- Ideal-primitive model of the bcrypt digest of a secret: the digest
determines and is determined by the hashed input. -/
def bcryptHash (secret : String) : String :=
  "$2b$12$" ++ secret

/-- bcrypt verify(secret, digest): true iff the digest was produced by
hashing exactly this secret. -/
def bcryptVerify (secret digest : String) : Bool :=
  digest = bcryptHash secret

/-- UserRepository find_by_username: first clip_users row with this
username and deleted_at IS NULL, RowNotFound as none. -/
def find_by_username (users : List User) (username : String) : Option User :=
  users.find? (fun u => decide (u.username = username ∧ u.deleted_at = none))

/-- UserRepository verify_password: look the user up by username, then
bcrypt-verify password ++ salt against the stored hash; any failure is an
error (RowNotFound), modelled as none. -/
def verify_password (users : List User) (username password : String) : Option User :=
  match find_by_username users username with
  | none => none
  | some u => if bcryptVerify (password ++ u.salt) u.password_hash then some u else none

/-- UserRepository update_login_info: bump login_count, set last-login
timestamp and address on the matching user row. -/
def update_login_info (users : List User) (user_id : Int) (ip : String) (now : Int) : List User :=
  users.map (fun u =>
    if u.id = user_id then
      ⟨u.id, u.username, u.email, u.password_hash, u.salt, u.status,
       some now, some ip, u.login_count + 1, u.created_at, u.updated_at, u.deleted_at⟩
    else u)

/-- SessionRepository find_by_token: first clip_user_sessions row whose
access-token column equals the given token and whose expires_at is still
in the future (the SQL is WHERE token = ? AND expires_at > NOW()).
Note it matches only the `token` column, never `refresh_token`. -/
def find_by_token (store : List UserSession) (now : Int) (tok : Token) : Option UserSession :=
  store.find? (fun s => decide (s.token = tok ∧ now < s.expires_at))

/-- SessionRepository create_session: unconditional INSERT of a new row
(auto-increment id modelled as one past the current row count). -/
def create_session (store : List UserSession) (user_id : Int) (token refresh_token : Token)
    (expires_at refresh_expires_at : Int) (ip : String) (device_info : Option String)
    (now : Int) : List UserSession :=
  store ++ [⟨(store.length : Int) + 1, user_id, token, refresh_token,
            expires_at, refresh_expires_at, device_info, some ip, now⟩]

/-- SessionRepository delete_session: DELETE FROM clip_user_sessions
WHERE token = ? — removes every row whose access-token column matches,
and succeeds whether or not any row matched. -/
def delete_session (store : List UserSession) (tok : Token) : List UserSession :=
  store.filter (fun s => decide (s.token ≠ tok))

/-- Outcome of the middleware for one request. -/
inductive GateResult where
  | rejected (status : Nat) (message : String)
  | authorized (userId : Int)
deriving DecidableEq, Repr

/-- The authorization header of a request, after the byte-level parsing
that C10 models separately on raw strings: either the header is absent,
or present but not of the exact shape Bearer plus a space, or it carries
a bearer token. -/
inductive BearerHeader where
  | absent
  | notBearer
  | bearer (t : Token)
deriving DecidableEq, Repr

/-- middlewares/mod.rs auth: extract the bearer token (absence and a
malformed header both make extract_token_from_header return None, hence
one 401), then require a live session row via find_by_token, then decode
the JWT under the configured secret; on success attach claims.sub to the
request context and forward. -/
def auth (store : List UserSession) (secret : String) (now : Int) (hdr : BearerHeader) : GateResult :=
  match hdr with
  | BearerHeader.absent => GateResult.rejected 401 "缺少认证令牌"
  | BearerHeader.notBearer => GateResult.rejected 401 "缺少认证令牌"
  | BearerHeader.bearer tok =>
    match find_by_token store now tok with
    | none => GateResult.rejected 401 "令牌已过期或无效"
    | some _ =>
      match decodeToken secret now tok with
      | none => GateResult.rejected 401 "无效的令牌"
      | some claims => GateResult.authorized claims.sub

/-- models.rs struct LoginResponse: full user row plus both tokens. -/
structure LoginResponse where
  user : User
  access_token : Token
  refresh_token : Token
  expires_in : Int
deriving DecidableEq, Repr

/-- Outcome of the login handler: an HTTP error status with the envelope
message, or 200 with a LoginResponse body. -/
inductive LoginResult where
  | err (status : Nat) (message : String)
  | ok (resp : LoginResponse)
deriving DecidableEq, Repr

/-- handlers/auth.rs login: verify_password (401 on failure), reject
status 0 users with 403, issue an access token with exp now plus
jwt_expires_in and a refresh token with exp now plus
jwt_refresh_expires_in, insert the session, best-effort
update_login_info, and return 200 with the full user row and both
tokens.  Returns the result, the session table and the user table after
the request. -/
def login (users : List User) (store : List UserSession) (cfg : Config) (now : Int)
    (username password ip : String) (device_info : Option String) :
    LoginResult × List UserSession × List User :=
  match verify_password users username password with
  | none => (LoginResult.err 401 "用户名或密码错误", store, users)
  | some user =>
    if user.status = 0 then
      (LoginResult.err 403 "用户已被禁用", store, users)
    else
      let expires_at := now + cfg.jwt_expires_in
      let refresh_expires_at := now + cfg.jwt_refresh_expires_in
      let token := Token.signed ⟨user.id, expires_at, now⟩ cfg.jwt_secret
      let refresh_token := Token.signed ⟨user.id, refresh_expires_at, now⟩ cfg.jwt_secret
      let store' := create_session store user.id token refresh_token
        expires_at refresh_expires_at ip device_info now
      let users' := update_login_info users user.id ip now
      (LoginResult.ok ⟨user, token, refresh_token, cfg.jwt_expires_in⟩, store', users')

/-- Outcome of the refresh handler: an HTTP error, or 200 with the new
access token and its expires_in. -/
inductive RefreshResult where
  | err (status : Nat) (message : String)
  | ok (access_token : Token) (expires_in : Int)
deriving DecidableEq, Repr

/-- handlers/auth.rs refresh_token: inline bearer extraction (401 on a
missing or non-Bearer header), then SessionRepository find_by_token on
the presented string — i.e. a match against the access-token column with
the access-expiry filter — then sign a fresh access token for
session.user_id and return it without touching the store.  Returns the
result and the session table after the request. -/
def refresh_token_handler (store : List UserSession) (cfg : Config) (now : Int)
    (hdr : BearerHeader) : RefreshResult × List UserSession :=
  match hdr with
  | BearerHeader.absent => (RefreshResult.err 401 "缺少认证头", store)
  | BearerHeader.notBearer => (RefreshResult.err 401 "无效的 token 格式", store)
  | BearerHeader.bearer tok =>
    match find_by_token store now tok with
    | none => (RefreshResult.err 401 "无效的 refresh token", store)
    | some session =>
      let expires_at := now + cfg.jwt_expires_in
      let new_token := Token.signed ⟨session.user_id, expires_at, now⟩ cfg.jwt_secret
      (RefreshResult.ok new_token cfg.jwt_expires_in, store)

/-- handlers/auth.rs logout: inline bearer extraction (401 on a missing
or non-Bearer header), then delete_session by the presented token and
report 200 whether or not any row matched.  Returns status, envelope
message and the session table after the request. -/
def logout (store : List UserSession) (hdr : BearerHeader) :
    (Nat × String) × List UserSession :=
  match hdr with
  | BearerHeader.absent => ((401, "缺少认证头"), store)
  | BearerHeader.notBearer => ((401, "无效的 token 格式"), store)
  | BearerHeader.bearer tok => ((200, "退出登录成功"), delete_session store tok)

/-- An HTTP header value: a UTF-8 string (modelled as its character
list, standing for the Rust str the code slices bytewise — the guard
below only ever slices after an ASCII match, where bytes and characters
coincide) or bytes that fail the to_str UTF-8 check. -/
inductive HeaderValue where
  | utf8 (s : List Char)
  | nonUtf8
deriving DecidableEq, Repr

/-- HeaderMap get: first header with the given (lowercased) name. -/
def headerGet (headers : List (String × HeaderValue)) (name : String) : Option HeaderValue :=
  (headers.find? (fun p => decide (p.1 = name))).map (fun p => p.2)

/-- The seven characters of the literal the extraction guards on. -/
def bearerChars : List Char := "Bearer ".data

/-- middlewares/mod.rs extract_token_from_header: get the authorization
header, to_str it, and when it starts with Bearer plus a space return
the slice from index 7 on; any failure returns None.  starts_with is
rendered as equality of the first seven characters.  The inline
extraction in refresh_token and logout runs the identical steps. -/
def extract_token_from_header (headers : List (String × HeaderValue)) : Option (List Char) :=
  match headerGet headers "authorization" with
  | none => none
  | some HeaderValue.nonUtf8 => none
  | some (HeaderValue.utf8 s) =>
    if s.take 7 = bearerChars then some (s.drop 7) else none

/-- Rendering of an optional integer field for the serialization model. -/
def optIntStr : Option Int → String
  | none => "null"
  | some n => toString n

/-- Rendering of an optional string field for the serialization model. -/
def optStrStr : Option String → String
  | none => "null"
  | some s => s

/-- Placeholder rendering of a token value inside a JSON body; C3 is
about field names and the digest and salt values, not token bytes. -/
def tokenStr : Token → String
  | Token.signed _ _ => "<jwt>"
  | Token.malformed r => r

/-- serde derive Serialize on models.rs User: every declared field is
emitted, in declaration order, with its field name — there is no skip
attribute on password_hash or salt.  The serialized object is modelled
as its flat list of field-name and value pairs. -/
def serializeUser (u : User) : List (String × String) :=
  [("id", toString u.id), ("username", u.username), ("email", u.email),
   ("password_hash", u.password_hash), ("salt", u.salt),
   ("status", toString u.status), ("last_login_at", optIntStr u.last_login_at),
   ("last_login_ip", optStrStr u.last_login_ip),
   ("login_count", toString u.login_count), ("created_at", toString u.created_at),
   ("updated_at", toString u.updated_at)]

/-- serde derive Serialize on models.rs LoginResponse: the nested user
object is flattened with a user dot path, followed by the token fields
and expires_in. -/
def serializeLoginResponse (r : LoginResponse) : List (String × String) :=
  (serializeUser r.user).map (fun p => ("user." ++ p.1, p.2)) ++
  [("access_token", tokenStr r.access_token),
   ("refresh_token", tokenStr r.refresh_token),
   ("expires_in", toString r.expires_in)]

/-- A registered, enabled user row used by the concrete scenarios:
alice with password secret123 hashed over salt salt0. -/
def aliceUser : User :=
  ⟨1, "alice", "a@x.com", bcryptHash ("secret123" ++ "salt0"), "salt0", 1,
   none, none, 0, 0, 0, none⟩

/-- A session row as login would create it at instant 0 under the
default config: access token expiring at 3600, refresh token expiring
at 2592000. -/
def sess0 : UserSession :=
  ⟨1, 1, Token.signed ⟨1, 3600, 0⟩ "default_secret_key",
   Token.signed ⟨1, 2592000, 0⟩ "default_secret_key",
   3600, 2592000, none, some "1.2.3.4", 0⟩

/-- Per-session invariant established by login: a well-formed stored
access token embeds exactly the expiry recorded in the expires_at
column. -/
def sessionWF (s : UserSession) : Bool :=
  match s.token with
  | Token.signed c _ => decide (c.exp = s.expires_at)
  | Token.malformed _ => true

/-- The signature of a token verifies under a given secret: the token is
a well-formed HS256 object signed with exactly that secret. -/
def tokenSignedWith (t : Token) (secret : String) : Bool :=
  match t with
  | Token.signed _ s => decide (s = secret)
  | Token.malformed _ => false

/-- C4: after logout of token t reports success, a protected request
presenting t is rejected 401 by the gate, for every store, secret and
instant — in particular even when the embedded signed expiry of t has
not passed, since the session row is gone and find_by_token fails. -/
theorem logout_then_auth_rejected (store : List UserSession) (secret : String) (now : Int) (t : Token) :
    (logout store (BearerHeader.bearer t)).1 = (200, "退出登录成功") ∧
    auth (logout store (BearerHeader.bearer t)).2 secret now (BearerHeader.bearer t) =
      GateResult.rejected 401 "令牌已过期或无效" := by
  refine ⟨rfl, ?_⟩
  have hfind : find_by_token (delete_session store t) now t = none := by
    unfold find_by_token delete_session
    rw [List.find?_eq_none]
    intro s hs
    have hne : s.token ≠ t := by simpa using List.of_mem_filter hs
    simp [hne]
  show auth (delete_session store t) secret now (BearerHeader.bearer t) = _
  simp [auth, hfind]

/-- C5 counterexample: the claim says a token issued at instant 0 with
TTL 3600 must fail verification at instant 3601; the default 60-second
leeway of jsonwebtoken makes decoding succeed there. -/
theorem token_verify_succeeds_after_expiry :
    decodeToken "default_secret_key" 3601 (Token.signed ⟨1, 3600, 0⟩ "default_secret_key") =
      some ⟨1, 3600, 0⟩ := by decide

/-- C5 amended: a token issued at instant iat with TTL ttl verifies at
iat + ttl - 1, still verifies at every instant up to and including
iat + ttl + 60 (the default leeway, uniformly for all tokens, so the
boundary is consistent), and fails from iat + ttl + 61 on. -/
theorem token_verify_window (sub iat ttl : Int) (secret : String) :
    decodeToken secret (iat + ttl - 1) (Token.signed ⟨sub, iat + ttl, iat⟩ secret) =
      some ⟨sub, iat + ttl, iat⟩ ∧
    decodeToken secret (iat + ttl) (Token.signed ⟨sub, iat + ttl, iat⟩ secret) =
      some ⟨sub, iat + ttl, iat⟩ ∧
    decodeToken secret (iat + ttl + jwtLeeway) (Token.signed ⟨sub, iat + ttl, iat⟩ secret) =
      some ⟨sub, iat + ttl, iat⟩ ∧
    decodeToken secret (iat + ttl + jwtLeeway + 1) (Token.signed ⟨sub, iat + ttl, iat⟩ secret) =
      none := by
  have hc : ∀ now : Int, now - 60 ≤ iat + ttl →
      decodeToken secret now (Token.signed ⟨sub, iat + ttl, iat⟩ secret) =
        some ⟨sub, iat + ttl, iat⟩ := by
    intro now h
    simp [decodeToken, jwtLeeway, h]
  refine ⟨hc _ (by omega), hc _ (by omega), ?_, ?_⟩
  · exact hc _ (by simp [jwtLeeway])
  · simp [decodeToken, jwtLeeway]

/-- C2: evaluation of the refresh handler on a session whose refresh
expiry (2592000) is far in the future at instant 10.  Presenting the
refresh token is rejected 401 with no new access token, because
find_by_token matches the access-token column with the access-expiry
filter; presenting the access token instead succeeds.  This contradicts
the claim that refresh looks the session up by the refresh-token value
under the refresh-expiry condition. -/
theorem refresh_matches_access_token_column :
    (10:Int) < sess0.refresh_expires_at ∧
    refresh_token_handler [sess0] defaultConfig 10 (BearerHeader.bearer sess0.refresh_token) =
      (RefreshResult.err 401 "无效的 refresh token", [sess0]) ∧
    refresh_token_handler [sess0] defaultConfig 10 (BearerHeader.bearer sess0.token) =
      (RefreshResult.ok (Token.signed ⟨1, 3610, 10⟩ "default_secret_key") 3600, [sess0]) := by
  decide

/-- C3: evaluation of a successful login of alice: the serialized
LoginResponse body contains the user password_hash field holding the
bcrypt digest and the salt field holding the salt, contradicting the
claim that digest and salt never appear in the login response. -/
theorem login_response_contains_digest_and_salt :
    ∃ resp, (login [aliceUser] [] defaultConfig 1000 "alice" "secret123" "1.2.3.4" none).1 =
      LoginResult.ok resp ∧
      ("user.password_hash", bcryptHash ("secret123" ++ "salt0")) ∈ serializeLoginResponse resp ∧
      ("user.salt", "salt0") ∈ serializeLoginResponse resp := by
  refine ⟨⟨aliceUser, Token.signed ⟨1, 4600, 1000⟩ "default_secret_key",
          Token.signed ⟨1, 2593000, 1000⟩ "default_secret_key", 3600⟩, ?_, ?_, ?_⟩ <;> decide

/-- C6: whenever login returns an error outcome — unknown username,
wrong password, or disabled user — both the session table and the user
table are returned unchanged: no Session row is created. -/
theorem failed_login_leaves_stores_unchanged
    (users : List User) (store : List UserSession) (cfg : Config) (now : Int)
    (username password ip : String) (dev : Option String) (st : Nat) (msg : String)
    (h : (login users store cfg now username password ip dev).1 = LoginResult.err st msg) :
    (login users store cfg now username password ip dev).2.1 = store ∧
    (login users store cfg now username password ip dev).2.2 = users := by
  unfold login at h ⊢
  cases hv : verify_password users username password with
  | none => simp [hv]
  | some u =>
    by_cases hs : u.status = 0
    · simp [hv, hs]
    · simp [hv, hs] at h

/-- C6 witness: the concrete scenario login alice with wrongpass leaves
the single-session store and the user table untouched. -/
theorem failed_login_leaves_stores_unchanged_witness :
    (login [aliceUser] [sess0] defaultConfig 5 "alice" "wrongpass" "9.9.9.9" none).2.1 = [sess0] ∧
    (login [aliceUser] [sess0] defaultConfig 5 "alice" "wrongpass" "9.9.9.9" none).2.2 = [aliceUser] :=
  failed_login_leaves_stores_unchanged [aliceUser] [sess0] defaultConfig 5
    "alice" "wrongpass" "9.9.9.9" none 401 "用户名或密码错误" (by decide)

/-- C7: a login attempt with an unregistered username and one with a
registered username but a wrong password produce identical observable
outcomes — the same 401 status with the same generic message — and both
leave every table unchanged. -/
theorem login_failure_indistinguishable
    (users : List User) (store : List UserSession) (cfg : Config) (now : Int)
    (ip : String) (dev : Option String) (u₁ p₁ u₂ p₂ : String) (user₂ : User)
    (h₁ : find_by_username users u₁ = none)
    (h₂ : find_by_username users u₂ = some user₂)
    (h₃ : bcryptVerify (p₂ ++ user₂.salt) user₂.password_hash = false) :
    login users store cfg now u₁ p₁ ip dev = login users store cfg now u₂ p₂ ip dev ∧
    login users store cfg now u₁ p₁ ip dev =
      (LoginResult.err 401 "用户名或密码错误", store, users) := by
  have hv₁ : verify_password users u₁ p₁ = none := by
    unfold verify_password
    rw [h₁]
  have hv₂ : verify_password users u₂ p₂ = none := by
    unfold verify_password
    rw [h₂]
    simp [h₃]
  constructor
  · unfold login
    rw [hv₁, hv₂]
  · unfold login
    rw [hv₁]

/-- C7 witness: with alice registered, a login as the unknown user bob
and a login as alice with a wrong password are indistinguishable. -/
theorem login_failure_indistinguishable_witness :
    login [aliceUser] [] defaultConfig 0 "bob" "pw" "1.1.1.1" none =
      login [aliceUser] [] defaultConfig 0 "alice" "wrong" "1.1.1.1" none :=
  (login_failure_indistinguishable [aliceUser] [] defaultConfig 0 "1.1.1.1" none
    "bob" "pw" "alice" "wrong" aliceUser (by decide) (by decide) (by decide)).1

/-- C8: logout is idempotent — deleting by a token twice equals deleting
once, a bearer logout always reports 200 with the success envelope
whether or not a row matched (in particular a second logout with the
same token reports exactly what the first did), and when no row matches
the store is unchanged. -/
theorem logout_idempotent (store : List UserSession) (t : Token) :
    delete_session (delete_session store t) t = delete_session store t ∧
    (logout store (BearerHeader.bearer t)).1 = (200, "退出登录成功") ∧
    (logout (delete_session store t) (BearerHeader.bearer t)).1 =
      (logout store (BearerHeader.bearer t)).1 ∧
    ((∀ s ∈ store, s.token ≠ t) → (logout store (BearerHeader.bearer t)).2 = store) := by
  refine ⟨?_, rfl, rfl, ?_⟩
  · unfold delete_session
    rw [List.filter_filter]
    simp
  · intro hall
    show delete_session store t = store
    unfold delete_session
    rw [List.filter_eq_self]
    intro a ha
    simpa using hall a ha

/-- C8 witness: logging out with a token matching no row leaves the
store as it was. -/
theorem logout_idempotent_witness :
    (logout [sess0] (BearerHeader.bearer (Token.malformed "zzz"))).2 = [sess0] :=
  (logout_idempotent [sess0] (Token.malformed "zzz")).2.2.2 (by decide)

/-- C10: bearer extraction is total and guarded — a missing
authorization header, a non-UTF-8 value, and a value not starting with
the seven characters Bearer-space all yield none; on success the result
is exactly the slice from index 7 on, which is in bounds (the value has
at least 7 characters) and recomposes with the guard to the original
value; and the gate turns an extraction failure of either kind into a
401 without reaching the handler. -/
theorem extract_token_total_and_guarded (headers : List (String × HeaderValue)) :
    (headerGet headers "authorization" = none → extract_token_from_header headers = none) ∧
    (headerGet headers "authorization" = some HeaderValue.nonUtf8 →
      extract_token_from_header headers = none) ∧
    (∀ s : List Char, headerGet headers "authorization" = some (HeaderValue.utf8 s) →
      (s.take 7 ≠ bearerChars → extract_token_from_header headers = none) ∧
      (s.take 7 = bearerChars →
        extract_token_from_header headers = some (s.drop 7) ∧
        7 ≤ s.length ∧ bearerChars ++ s.drop 7 = s)) ∧
    (∀ (store : List UserSession) (secret : String) (now : Int),
      auth store secret now BearerHeader.absent = GateResult.rejected 401 "缺少认证令牌" ∧
      auth store secret now BearerHeader.notBearer = GateResult.rejected 401 "缺少认证令牌") := by
  refine ⟨?_, ?_, ?_, fun store secret now => ⟨rfl, rfl⟩⟩
  · intro h
    unfold extract_token_from_header
    rw [h]
  · intro h
    unfold extract_token_from_header
    rw [h]
  · intro s h
    constructor
    · intro hne
      unfold extract_token_from_header
      rw [h]
      simp [hne]
    · intro heq
      have hlen : 7 ≤ s.length := by
        have hl := congrArg List.length heq
        rw [List.length_take] at hl
        have hb : bearerChars.length = 7 := by decide
        rw [hb] at hl
        exact min_eq_left_iff.mp hl
      refine ⟨?_, hlen, ?_⟩
      · unfold extract_token_from_header
        rw [h]
        simp [heq]
      · conv_rhs => rw [← List.take_append_drop 7 s]
        rw [heq]

/-- C10 witness: a header map carrying Bearer abc extracts exactly the
characters after the seven-character guard, which is in bounds. -/
theorem extract_token_total_and_guarded_witness :
    extract_token_from_header [("authorization", HeaderValue.utf8 "Bearer abc".data)] =
      some ("Bearer abc".data.drop 7) ∧ 7 ≤ "Bearer abc".data.length := by
  have h := ((extract_token_total_and_guarded
    [("authorization", HeaderValue.utf8 "Bearer abc".data)]).2.2.1
    "Bearer abc".data (by decide)).2 (by decide)
  exact ⟨h.1, h.2.1⟩

/-- A well-formed session row for the gate scenario: access token signed
with secret k1 embedding exactly the stored expiry 5000. -/
def sessC1 : UserSession :=
  ⟨2, 7, Token.signed ⟨7, 5000, 0⟩ "k1", Token.malformed "r", 5000, 9000, none, none, 0⟩

/-- C1: over any store whose rows satisfy the per-session invariant that
a stored well-formed access token embeds the expiry recorded in its row
(which login establishes), the gate forwards a bearer request if and
only if a session row whose access-token column equals the presented
token with access expiry still in the future exists and the token
signature verifies under the configured secret; on forwarding the
attached identity is the subject of the token claims, and every
rejection carries status 401. -/
theorem auth_gate_forwards_iff (store : List UserSession) (secret : String) (now : Int)
    (tok : Token) (hwf : ∀ s ∈ store, sessionWF s = true) :
    ((∃ uid, auth store secret now (BearerHeader.bearer tok) = GateResult.authorized uid) ↔
      ((∃ s ∈ store, s.token = tok ∧ now < s.expires_at) ∧ tokenSignedWith tok secret = true)) ∧
    (∀ uid, auth store secret now (BearerHeader.bearer tok) = GateResult.authorized uid →
      ∃ c, tok = Token.signed c secret ∧ uid = c.sub) ∧
    (∀ st msg, auth store secret now (BearerHeader.bearer tok) = GateResult.rejected st msg →
      st = 401) := by
  cases hf : find_by_token store now tok with
  | none =>
    have hf' := hf
    unfold find_by_token at hf'
    have hnone : ∀ s ∈ store, ¬ (s.token = tok ∧ now < s.expires_at) := by
      intro s hs
      simpa using List.find?_eq_none.mp hf' s hs
    refine ⟨?_, ?_, ?_⟩
    · constructor
      · intro ⟨uid, hu⟩
        simp [auth, hf] at hu
      · rintro ⟨⟨s, hs, hp⟩, _⟩
        exact absurd hp (hnone s hs)
    · intro uid hu
      simp [auth, hf] at hu
    · intro st msg hr
      simp [auth, hf] at hr
      exact hr.1.symm
  | some s0 =>
    have hf' := hf
    unfold find_by_token at hf'
    have hmem : s0 ∈ store := List.mem_of_find?_eq_some hf'
    have hps : s0.token = tok ∧ now < s0.expires_at := by
      simpa using List.find?_some hf'
    obtain ⟨hts, hexp⟩ := hps
    cases hd : decodeToken secret now tok with
    | none =>
      refine ⟨?_, ?_, ?_⟩
      · constructor
        · intro ⟨uid, hu⟩
          simp [auth, hf, hd] at hu
        · rintro ⟨⟨s, hs, hp⟩, hsig⟩
          cases htok : tok with
          | malformed r =>
            rw [htok] at hsig
            simp [tokenSignedWith] at hsig
          | signed c sec =>
            have hsec : sec = secret := by
              rw [htok] at hsig
              simpa [tokenSignedWith] using hsig
            have hwf0 := hwf s0 hmem
            unfold sessionWF at hwf0
            rw [hts, htok] at hwf0
            have hce : c.exp = s0.expires_at := by simpa using hwf0
            have hsome : decodeToken secret now tok = some c := by
              rw [htok, hsec]
              have hcond : secret = secret ∧ now - jwtLeeway ≤ c.exp := by
                refine ⟨rfl, ?_⟩
                rw [hce]
                unfold jwtLeeway
                omega
              simp [decodeToken, hcond]
            rw [hd] at hsome
            exact Option.noConfusion hsome
      · intro uid hu
        simp [auth, hf, hd] at hu
      · intro st msg hr
        simp [auth, hf, hd] at hr
        exact hr.1.symm
    | some claims =>
      have hauth : auth store secret now (BearerHeader.bearer tok) =
          GateResult.authorized claims.sub := by
        simp [auth, hf, hd]
      have htok : tok = Token.signed claims secret := by
        cases tok with
        | malformed r => simp [decodeToken] at hd
        | signed c sec =>
          simp only [decodeToken] at hd
          by_cases hcond : sec = secret ∧ now - jwtLeeway ≤ c.exp
          · rw [if_pos hcond] at hd
            have hc : c = claims := by
              injection hd
            rw [hc, hcond.1]
          · rw [if_neg hcond] at hd
            exact Option.noConfusion hd
      refine ⟨?_, ?_, ?_⟩
      · constructor
        · intro _
          refine ⟨⟨s0, hmem, hts, hexp⟩, ?_⟩
          rw [htok]
          simp [tokenSignedWith]
        · intro _
          exact ⟨claims.sub, hauth⟩
      · intro uid hu
        rw [hauth] at hu
        refine ⟨claims, htok, ?_⟩
        injection hu with h
        exact h.symm
      · intro st msg hr
        rw [hauth] at hr
        exact GateResult.noConfusion hr

/-- C1 witness: in a one-row well-formed store the gate forwards the
stored access token at instant 10 and attaches user id 7. -/
theorem auth_gate_forwards_iff_witness :
    auth [sessC1] "k1" 10 (BearerHeader.bearer sessC1.token) = GateResult.authorized 7 := by
  obtain ⟨uid, hu⟩ := (auth_gate_forwards_iff [sessC1] "k1" 10 sessC1.token (by decide)).1.mpr
    ⟨⟨sessC1, by decide, by decide⟩, by decide⟩
  obtain ⟨c, hc, hsub⟩ :=
    (auth_gate_forwards_iff [sessC1] "k1" 10 sessC1.token (by decide)).2.1 uid hu
  have hc2 : c = ⟨7, 5000, 0⟩ := by
    have hx : Token.signed ⟨7, 5000, 0⟩ "k1" = Token.signed c "k1" := hc
    injection hx with h1
    exact h1.symm
  rw [hu, hsub, hc2]

/-- C9: the refresh handler returns the session table unchanged for
every request — in particular the freshly signed access token it returns
is never written back — and any token it returns that does not occur in
the access-token column of any row is rejected 401 by the session lookup
of the gate at every later instant and secret, despite its valid
signature and unexpired claims. -/
theorem refresh_never_persists_new_token
    (store : List UserSession) (cfg : Config) (now : Int) (hdr : BearerHeader) :
    (refresh_token_handler store cfg now hdr).2 = store ∧
    (∀ newTok ttl, (refresh_token_handler store cfg now hdr).1 = RefreshResult.ok newTok ttl →
      ∀ (secret : String) (now2 : Int), (∀ s ∈ store, s.token ≠ newTok) →
        auth store secret now2 (BearerHeader.bearer newTok) =
          GateResult.rejected 401 "令牌已过期或无效") := by
  constructor
  · cases hdr with
    | absent => rfl
    | notBearer => rfl
    | bearer tok =>
      cases hf : find_by_token store now tok with
      | none => simp [refresh_token_handler, hf]
      | some s => simp [refresh_token_handler, hf]
  · intro newTok ttl hok secret now2 hnone
    have hfind : find_by_token store now2 newTok = none := by
      unfold find_by_token
      rw [List.find?_eq_none]
      intro s hs
      simp [hnone s hs]
    simp [auth, hfind]

/-- C9 witness: refreshing with the stored access token of sess0 at
instant 10 yields a token signed for instant 3610 that no row stores, and
the gate rejects that token at instant 20 even under the right secret. -/
theorem refresh_never_persists_new_token_witness :
    auth [sess0] "default_secret_key" 20
      (BearerHeader.bearer (Token.signed ⟨1, 3610, 10⟩ "default_secret_key")) =
      GateResult.rejected 401 "令牌已过期或无效" :=
  (refresh_never_persists_new_token [sess0] defaultConfig 10
    (BearerHeader.bearer sess0.token)).2
    (Token.signed ⟨1, 3610, 10⟩ "default_secret_key") 3600 (by decide)
    "default_secret_key" 20 (by decide)

end NetClip
